import Mathlib

/-!
A shallow embedding of `src/user-data-fetcher/script.js` (the "User Data
Fetcher" widget) and proofs about its behaviour.

Modelling choices:
* The four DOM regions the script mutates (`loading`, `errorMessage`,
  `usersContainer`, plus the hidden/visible class toggles) are a record `Dom`;
  each JS function that mutates the DOM becomes a `Dom → Dom` function.
* The network (`fetch` plus `response.json()`) is the only external input;
  it is modelled by a `FetchEnv` value: either the fetch promise rejects
  with some message, or a response with a status code arrives whose body
  either fails to parse or parses to a list of users.
* Per the fetch standard, `response.ok` is true exactly for 2xx statuses;
  `responseOk` models that.
* JS exceptions are modelled by `Except`: the one genuine throw site in the
  rendering path is `user.address.city` when `user.address` is undefined
  (a TypeError), so `User.address` is an `Option Address` and
  `createUserCard` returns `Except String String`.
-/

def API_URL : String := "https://jsonplaceholder.typicode.com/users"

structure Address where
  city : String
deriving DecidableEq, Repr

structure User where
  id : Nat
  name : String
  email : String
  address : Option Address
deriving DecidableEq, Repr

/-- The four observable pieces of page state the script manipulates:
whether the loading indicator is hidden, whether the error-message region is
hidden, the error region text content, and the users container inner HTML. -/
structure Dom where
  loadingHidden : Bool
  errorHidden : Bool
  errorText : String
  usersHTML : String
deriving DecidableEq, Repr

/-- Fallback sample users in case the API is unavailable (`SAMPLE_USERS`). -/
def SAMPLE_USERS : List User :=
  [ { id := 1, name := "Leanne Graham", email := "Sincere@april.biz",
      address := some { city := "Gwenborough" } },
    { id := 2, name := "Ervin Howell", email := "Shanna@melissa.tv",
      address := some { city := "Wisokyburgh" } },
    { id := 3, name := "Clementine Bauch", email := "Nathan@yesenia.net",
      address := some { city := "McKenziehaven" } } ]

/-- `showLoading()`: unhide the loading indicator, hide the error region,
clear the users container. Note it does not clear the error text. -/
def showLoading (dom : Dom) : Dom :=
  { dom with loadingHidden := false, errorHidden := true, usersHTML := "" }

/-- `hideLoading()`. -/
def hideLoading (dom : Dom) : Dom :=
  { dom with loadingHidden := true }

/-- `displayError(message)`: hide the loading indicator, set the error text,
unhide the error region. -/
def displayError (message : String) (dom : Dom) : Dom :=
  let dom := hideLoading dom
  { dom with errorText := message, errorHidden := false }

/-- `clearError()`: hide the error region and empty its text. -/
def clearError (dom : Dom) : Dom :=
  { dom with errorHidden := true, errorText := "" }

/-- `createUserCard(user)`: the template literal from the source, with
`user.name`, `user.email` and `user.address.city` interpolated verbatim.
If `user.address` is undefined, the access `user.address.city` throws a
TypeError (modelled as `Except.error` with the message a TypeError would
carry, quotes elided). -/
def createUserCard (user : User) : Except String String :=
  match user.address with
  | none => Except.error "TypeError: cannot read properties of undefined (reading city)"
  | some a => Except.ok
      ("\n        <div class=\"user-card\">\n            <h3 class=\"user-name\">"
        ++ user.name
        ++ "</h3>\n            <ul class=\"user-details\">\n                <li>\n                    <strong>Email:</strong> "
        ++ user.email
        ++ "\n                </li>\n                <li>\n                    <strong>City:</strong> "
        ++ a.city
        ++ "\n                </li>\n            </ul>\n        </div>\n    ")

/-- `users.map(user => createUserCard(user))` where the callback may throw:
stops at the first throwing element, as Array.prototype.map does. -/
def mapCards : List User → Except String (List String)
  | [] => Except.ok []
  | u :: us =>
    match createUserCard u with
    | Except.error e => Except.error e
    | Except.ok c =>
      match mapCards us with
      | Except.error e => Except.error e
      | Except.ok cs => Except.ok (c :: cs)

/-- `displayUsers(users)`: hide loading, clear the error, then either show
"No users found." for an empty list, or set the container HTML to the joined
cards. A throw from the card mapping escapes (`Except.error`) carrying the
DOM as already mutated at the throw point (hide/clear done, container not
yet assigned). The JS also treats a null/undefined `users` like empty; a
Lean list is never null, so only the `length === 0` half is represented. -/
def displayUsers (users : List User) (dom : Dom) : Except (String × Dom) Dom :=
  let dom := hideLoading dom
  let dom := clearError dom
  if users.isEmpty then
    Except.ok (displayError "No users found." dom)
  else
    match mapCards users with
    | Except.error e => Except.error (e, dom)
    | Except.ok cards => Except.ok { dom with usersHTML := String.join cards }

/-- Per the fetch standard, `Response.ok` is true iff the status is 2xx. -/
def responseOk (status : Nat) : Bool :=
  200 ≤ status && status ≤ 299

deriving instance DecidableEq for Except

/-- The behaviour of the endpoint for one trigger: the fetch promise rejects
(network error), or a response arrives with a status code and a body that
either fails to parse as JSON or parses to a list of users. -/
inductive FetchEnv where
  | networkError (message : String)
  | httpResponse (status : Nat) (body : Except String (List User))
deriving DecidableEq

/-- Whether the environment makes `fetchUsers` hit its catch block:
a rejected fetch, a non-2xx status, or a parse error on a 2xx response. -/
def FetchEnv.isFailure : FetchEnv → Bool
  | FetchEnv.networkError _ => true
  | FetchEnv.httpResponse _ (Except.error _) => true
  | FetchEnv.httpResponse status (Except.ok _) => !responseOk status

/-- The `error.message` seen by the catch block of `fetchUsers` when the
environment is a failure: the fetch rejection message, the thrown
"HTTP error! Status: ..." for a non-ok status (the body is never parsed
then), or the JSON parse error message. -/
def failureReason : FetchEnv → String
  | FetchEnv.networkError message => message
  | FetchEnv.httpResponse status (Except.error message) =>
      if responseOk status then message else "HTTP error! Status: " ++ toString status
  | FetchEnv.httpResponse status (Except.ok _) => "HTTP error! Status: " ++ toString status

/-- `fetchUsers()`: show loading, await the fetch; throw on a non-ok status;
parse the body. Any failure is caught: it is logged (not modelled), an error
message embedding `error.message` is displayed, and `SAMPLE_USERS` is
returned instead of propagating. Returns the users together with the DOM. -/
def fetchUsers (env : FetchEnv) (dom : Dom) : List User × Dom :=
  let dom := showLoading dom
  match env with
  | FetchEnv.networkError message =>
      (SAMPLE_USERS,
        displayError ("Failed to fetch users: " ++ message ++ ". Showing sample data.") dom)
  | FetchEnv.httpResponse status body =>
      if !responseOk status then
        (SAMPLE_USERS,
          displayError ("Failed to fetch users: HTTP error! Status: " ++ toString status
            ++ ". Showing sample data.") dom)
      else
        match body with
        | Except.error message =>
            (SAMPLE_USERS,
              displayError ("Failed to fetch users: " ++ message ++ ". Showing sample data.") dom)
        | Except.ok users => (users, dom)

/-- `handleFetchUsers()` (the click handler / trigger): await `fetchUsers`,
then `displayUsers`; any exception escaping that orchestration is caught and
a generic message is displayed on the DOM as it stood at the throw point.
The result is a `Dom`, not an `Except`: nothing is rethrown. -/
def handleFetchUsers (env : FetchEnv) (dom : Dom) : Dom :=
  let r := fetchUsers env dom
  match displayUsers r.1 r.2 with
  | Except.ok dom2 => dom2
  | Except.error (_, domE) => displayError "An unexpected error occurred. Please try again." domE

/-- The DOM after `displayUsers` returns or throws (statement helper). -/
def displayUsersDom (users : List User) (dom : Dom) : Dom :=
  match displayUsers users dom with
  | Except.ok d => d
  | Except.error (_, d) => d

/-- A page state before the first trigger: loading hidden, no error shown,
empty container. -/
def dom0 : Dom := { loadingHidden := true, errorHidden := true, errorText := "", usersHTML := "" }

/-- `hay` contains `needle` verbatim as a contiguous substring. -/
def ContainsStr (hay needle : String) : Prop :=
  ∃ p q : String, hay = p ++ needle ++ q

/-! ### Statement helpers and basic lemmas -/

/-- The card text `createUserCard` produces for a user whose fields are all
present (and `""` on the throwing case, where no card text exists). -/
def cardStr (u : User) : String :=
  match createUserCard u with
  | Except.ok s => s
  | Except.error _ => ""

/-- The four literal segments of the card template, as the spec describes the
fixed HTML template: everything before the name, between name and email,
between email and city, and after the city. -/
def cardHead : String :=
  "\n        <div class=\"user-card\">\n            <h3 class=\"user-name\">"

/-- Template segment between the name and the email. -/
def cardAfterName : String :=
  "</h3>\n            <ul class=\"user-details\">\n                <li>\n                    <strong>Email:</strong> "

/-- Template segment between the email and the city. -/
def cardAfterEmail : String :=
  "\n                </li>\n                <li>\n                    <strong>City:</strong> "

/-- Template segment after the city. -/
def cardTail : String :=
  "\n                </li>\n            </ul>\n        </div>\n    "

theorem containsStr_mid (x y z : String) : ContainsStr (x ++ y ++ z) y :=
  ⟨x, z, rfl⟩

theorem containsStr_append_right (s : String) {h n : String}
    (hc : ContainsStr h n) : ContainsStr (h ++ s) n := by
  obtain ⟨p, q, e⟩ := hc
  exact ⟨p, q ++ s, by rw [e]; exact String.append_assoc (p ++ n) q s⟩

theorem createUserCard_ok (u : User) (a : Address) (h : u.address = some a) :
    createUserCard u = Except.ok (cardStr u) := by
  simp [createUserCard, cardStr, h]

theorem cardStr_parts (u : User) (a : Address) (h : u.address = some a) :
    cardStr u = cardHead ++ u.name ++ cardAfterName ++ u.email ++ cardAfterEmail
      ++ a.city ++ cardTail := by
  simp [cardStr, createUserCard, h, cardHead, cardAfterName, cardAfterEmail, cardTail]

theorem cardStr_contains (u : User) (a : Address) (h : u.address = some a) :
    ContainsStr (cardStr u) u.name ∧ ContainsStr (cardStr u) u.email ∧
      ContainsStr (cardStr u) a.city := by
  rw [cardStr_parts u a h]
  refine ⟨?_, ?_, ?_⟩
  · exact containsStr_append_right _ (containsStr_append_right _
      (containsStr_append_right _ (containsStr_append_right _
        (containsStr_mid cardHead u.name cardAfterName))))
  · exact containsStr_append_right _ (containsStr_append_right _
      (containsStr_mid (cardHead ++ u.name ++ cardAfterName) u.email cardAfterEmail))
  · exact containsStr_mid
      (cardHead ++ u.name ++ cardAfterName ++ u.email ++ cardAfterEmail) a.city cardTail

theorem mapCards_ok (users : List User) (h : ∀ u ∈ users, u.address.isSome = true) :
    mapCards users = Except.ok (users.map cardStr) := by
  induction users with
  | nil => rfl
  | cons u us ih =>
    obtain ⟨a, ha⟩ := Option.isSome_iff_exists.mp (h u (List.mem_cons_self u us))
    have ihh := ih (fun v hv => h v (List.mem_cons_of_mem u hv))
    simp [mapCards, createUserCard, ha, ihh, cardStr]

/-- The single message the catch block of `fetchUsers` displays, per kind of
failure (transcribed per branch of the control flow). -/
def caughtMessage : FetchEnv → String
  | FetchEnv.networkError m =>
      "Failed to fetch users: " ++ m ++ ". Showing sample data."
  | FetchEnv.httpResponse s (Except.error m) =>
      if responseOk s then "Failed to fetch users: " ++ m ++ ". Showing sample data."
      else "Failed to fetch users: HTTP error! Status: " ++ toString s ++ ". Showing sample data."
  | FetchEnv.httpResponse s (Except.ok _) =>
      "Failed to fetch users: HTTP error! Status: " ++ toString s ++ ". Showing sample data."

theorem fetchUsers_failure (env : FetchEnv) (dom : Dom) (h : env.isFailure = true) :
    fetchUsers env dom =
      (SAMPLE_USERS,
        { loadingHidden := true, errorHidden := false,
          errorText := caughtMessage env, usersHTML := "" }) := by
  cases env with
  | networkError m => rfl
  | httpResponse s b =>
    cases hok : responseOk s with
    | true =>
      cases b with
      | error m =>
        simp [fetchUsers, caughtMessage, hok, showLoading, displayError, hideLoading]
      | ok us => simp [FetchEnv.isFailure, hok] at h
    | false =>
      cases b with
      | error m =>
        simp [fetchUsers, caughtMessage, hok, showLoading, displayError, hideLoading]
      | ok us =>
        simp [fetchUsers, caughtMessage, hok, showLoading, displayError, hideLoading]

theorem fetchUsers_success (status : Nat) (users : List User) (dom : Dom)
    (h : responseOk status = true) :
    fetchUsers (FetchEnv.httpResponse status (Except.ok users)) dom =
      (users, showLoading dom) := by
  simp [fetchUsers, h]

theorem caughtMessage_contains_reason (env : FetchEnv) :
    ContainsStr (caughtMessage env) (failureReason env) := by
  cases env with
  | networkError m => exact containsStr_mid "Failed to fetch users: " m ". Showing sample data."
  | httpResponse s b =>
    have hlit : ("Failed to fetch users: " : String) ++ "HTTP error! Status: "
        = "Failed to fetch users: HTTP error! Status: " := rfl
    cases b with
    | error m =>
      cases hok : responseOk s with
      | true =>
        simp only [caughtMessage, failureReason, hok, if_true]
        exact containsStr_mid "Failed to fetch users: " m ". Showing sample data."
      | false =>
        simp only [caughtMessage, failureReason, hok, Bool.false_eq_true, if_false]
        refine ⟨"Failed to fetch users: ", ". Showing sample data.", ?_⟩
        rw [← String.append_assoc "Failed to fetch users: " "HTTP error! Status: " (toString s),
          hlit]
    | ok us =>
      refine ⟨"Failed to fetch users: ", ". Showing sample data.", ?_⟩
      simp only [caughtMessage, failureReason]
      rw [← String.append_assoc "Failed to fetch users: " "HTTP error! Status: " (toString s),
        hlit]

theorem displayUsers_nil (dom : Dom) :
    displayUsers [] dom =
      Except.ok { loadingHidden := true, errorHidden := false,
                  errorText := "No users found.", usersHTML := dom.usersHTML } := rfl

theorem displayUsers_cons_ok (u : User) (us : List User) (dom : Dom)
    (cards : List String) (h : mapCards (u :: us) = Except.ok cards) :
    displayUsers (u :: us) dom =
      Except.ok { loadingHidden := true, errorHidden := true,
                  errorText := "", usersHTML := String.join cards } := by
  simp [displayUsers, h, hideLoading, clearError]

theorem displayUsers_cons_error (u : User) (us : List User) (dom : Dom)
    (e : String) (h : mapCards (u :: us) = Except.error e) :
    displayUsers (u :: us) dom =
      Except.error (e, { loadingHidden := true, errorHidden := true,
                         errorText := "", usersHTML := dom.usersHTML }) := by
  simp [displayUsers, h, hideLoading, clearError]

theorem displayUsers_samples (dom : Dom) :
    displayUsers SAMPLE_USERS dom =
      Except.ok { loadingHidden := true, errorHidden := true,
                  errorText := "", usersHTML := String.join (SAMPLE_USERS.map cardStr) } := by
  exact displayUsers_cons_ok _ _ dom _
    (mapCards_ok SAMPLE_USERS (by intro u hu; fin_cases hu <;> rfl))

/-- `displayUsers` reads the incoming DOM only through its container HTML:
everything else it either overwrites or hides before producing output. -/
theorem displayUsers_html_only (users : List User) (d1 d2 : Dom)
    (h : d1.usersHTML = d2.usersHTML) :
    displayUsers users d1 = displayUsers users d2 := by
  cases users with
  | nil => rw [displayUsers_nil, displayUsers_nil, h]
  | cons u us =>
    cases hm : mapCards (u :: us) with
    | ok cards => rw [displayUsers_cons_ok u us d1 cards hm, displayUsers_cons_ok u us d2 cards hm]
    | error e =>
      rw [displayUsers_cons_error u us d1 e hm, displayUsers_cons_error u us d2 e hm, h]

theorem fetchUsers_fst_indep (env : FetchEnv) (d1 d2 : Dom) :
    (fetchUsers env d1).1 = (fetchUsers env d2).1 := by
  cases env with
  | networkError m => rfl
  | httpResponse s b =>
    cases hok : responseOk s with
    | true => cases b <;> simp [fetchUsers, hok]
    | false => cases b <;> simp [fetchUsers, hok]

theorem fetchUsers_snd_html (env : FetchEnv) (dom : Dom) :
    (fetchUsers env dom).2.usersHTML = "" := by
  cases env with
  | networkError m => rfl
  | httpResponse s b =>
    cases hok : responseOk s with
    | true => cases b <;> simp [fetchUsers, hok, showLoading, displayError, hideLoading]
    | false => cases b <;> simp [fetchUsers, hok, showLoading, displayError, hideLoading]

theorem handleFetchUsers_expand (env : FetchEnv) (dom : Dom) :
    handleFetchUsers env dom =
      match displayUsers (fetchUsers env dom).1 (fetchUsers env dom).2 with
      | Except.ok dom2 => dom2
      | Except.error (_, domE) =>
          displayError "An unexpected error occurred. Please try again." domE := rfl

/-- The final DOM of one trigger does not depend on the DOM the trigger
started from: `showLoading` wipes the container, and every other region is
overwritten on every path before the trigger finishes. -/
theorem handleFetchUsers_dom_indep (env : FetchEnv) (d1 d2 : Dom) :
    handleFetchUsers env d1 = handleFetchUsers env d2 := by
  have h1 : (fetchUsers env d1).1 = (fetchUsers env d2).1 := fetchUsers_fst_indep env d1 d2
  have h2 : displayUsers (fetchUsers env d1).1 (fetchUsers env d1).2
      = displayUsers (fetchUsers env d2).1 (fetchUsers env d2).2 := by
    rw [h1]
    exact displayUsers_html_only _ _ _ (by rw [fetchUsers_snd_html, fetchUsers_snd_html])
  rw [handleFetchUsers_expand, handleFetchUsers_expand, h2]

theorem displayUsersDom_loading (users : List User) (dom : Dom) :
    (displayUsersDom users dom).loadingHidden = true := by
  unfold displayUsersDom
  cases users with
  | nil => rw [displayUsers_nil]
  | cons u us =>
    cases hm : mapCards (u :: us) with
    | ok cards => rw [displayUsers_cons_ok u us dom cards hm]
    | error e => rw [displayUsers_cons_error u us dom e hm]

/-! ### The claims -/

/-- Claim C1: for every failure during fetch (network error, non-2xx HTTP
status, or JSON parse error), `fetchUsers` does not propagate the failure but
returns exactly the fixed 3-element fallback sequence `SAMPLE_USERS`
(ids 1, 2, 3: Leanne Graham, Ervin Howell, Clementine Bauch). -/
theorem fetchUsers_failure_returns_sample_users (env : FetchEnv) (dom : Dom)
    (h : env.isFailure = true) :
    (fetchUsers env dom).1 = SAMPLE_USERS ∧
    SAMPLE_USERS.length = 3 ∧
    SAMPLE_USERS.map User.id = [1, 2, 3] ∧
    SAMPLE_USERS.map User.name = ["Leanne Graham", "Ervin Howell", "Clementine Bauch"] := by
  refine ⟨?_, rfl, rfl, rfl⟩
  rw [fetchUsers_failure env dom h]

/-- Witness for C1 at a concrete rejected fetch. -/
theorem fetchUsers_failure_returns_sample_users_witness :
    (FetchEnv.networkError "Failed to fetch").isFailure = true ∧
    (fetchUsers (FetchEnv.networkError "Failed to fetch") dom0).1 = SAMPLE_USERS :=
  ⟨rfl, (fetchUsers_failure_returns_sample_users
    (FetchEnv.networkError "Failed to fetch") dom0 rfl).1⟩

/-- Claim C2 counterexample: with the endpoint returning HTTP 500, after the
full trigger flow completes the error region is hidden and its text empty, so
no error banner mentioning status 500 is visible alongside the fallback
render — `displayUsers` clears the banner `fetchUsers` had shown. -/
theorem http500_final_state_has_no_banner :
    (handleFetchUsers (FetchEnv.httpResponse 500 (Except.ok [])) dom0).errorHidden = true ∧
    (handleFetchUsers (FetchEnv.httpResponse 500 (Except.ok [])) dom0).errorText = "" :=
  ⟨rfl, rfl⟩

/-- Claim C2 as amended: for every failure during fetch, the completed trigger
flow ends in exactly the state of a successful 3-card render of
`SAMPLE_USERS`, with the error banner hidden and emptied; the banner carrying
the failure's message text is only shown transiently by `fetchUsers`, before
`displayUsers` clears it. -/
theorem handleFetchUsers_failure_fallback_render (env : FetchEnv) (dom : Dom)
    (h : env.isFailure = true) :
    handleFetchUsers env dom
        = handleFetchUsers (FetchEnv.httpResponse 200 (Except.ok SAMPLE_USERS)) dom ∧
    (handleFetchUsers env dom).usersHTML = String.join (SAMPLE_USERS.map cardStr) ∧
    (handleFetchUsers env dom).errorHidden = true ∧
    (handleFetchUsers env dom).errorText = "" ∧
    (fetchUsers env dom).2.errorHidden = false ∧
    (fetchUsers env dom).2.errorText = caughtMessage env ∧
    ContainsStr (caughtMessage env) (failureReason env) := by
  have hf := fetchUsers_failure env dom h
  have h1 : (fetchUsers env dom).1 = SAMPLE_USERS := by rw [hf]
  have h2 : (fetchUsers env dom).2 =
      { loadingHidden := true, errorHidden := false,
        errorText := caughtMessage env, usersHTML := "" } := by rw [hf]
  have hs := fetchUsers_success 200 SAMPLE_USERS dom rfl
  have h3 : (fetchUsers (FetchEnv.httpResponse 200 (Except.ok SAMPLE_USERS)) dom).1
      = SAMPLE_USERS := by rw [hs]
  have h4 : (fetchUsers (FetchEnv.httpResponse 200 (Except.ok SAMPLE_USERS)) dom).2
      = showLoading dom := by rw [hs]
  have hL : handleFetchUsers env dom =
      { loadingHidden := true, errorHidden := true, errorText := "",
        usersHTML := String.join (SAMPLE_USERS.map cardStr) } := by
    rw [handleFetchUsers_expand, h1, h2, displayUsers_samples]
  have hR : handleFetchUsers (FetchEnv.httpResponse 200 (Except.ok SAMPLE_USERS)) dom =
      { loadingHidden := true, errorHidden := true, errorText := "",
        usersHTML := String.join (SAMPLE_USERS.map cardStr) } := by
    rw [handleFetchUsers_expand, h3, h4, displayUsers_samples]
  exact ⟨by rw [hL, hR], by rw [hL], by rw [hL], by rw [hL], by rw [h2], by rw [h2],
    caughtMessage_contains_reason env⟩

/-- Witness for the amended C2 at the HTTP 500 scenario. -/
theorem handleFetchUsers_failure_fallback_render_witness :
    (FetchEnv.httpResponse 500 (Except.ok ([] : List User))).isFailure = true ∧
    (handleFetchUsers (FetchEnv.httpResponse 500 (Except.ok [])) dom0).usersHTML
      = String.join (SAMPLE_USERS.map cardStr) ∧
    (fetchUsers (FetchEnv.httpResponse 500 (Except.ok [])) dom0).2.errorHidden = false :=
  ⟨rfl,
   (handleFetchUsers_failure_fallback_render
     (FetchEnv.httpResponse 500 (Except.ok [])) dom0 rfl).2.1,
   (handleFetchUsers_failure_fallback_render
     (FetchEnv.httpResponse 500 (Except.ok [])) dom0 rfl).2.2.2.2.1⟩

/-- Claim C3: for every non-empty sequence of users passed to the renderer
(whose address field is present, so that no card access throws), the output
is one card per element, in input order, and the card at each index contains
that element's name, email and city verbatim. -/
theorem displayUsers_one_card_per_user (users : List User) (dom : Dom)
    (hne : users ≠ []) (haddr : ∀ u ∈ users, u.address.isSome = true) :
    ∃ cards : List String, ∃ dom2 : Dom,
      displayUsers users dom = Except.ok dom2 ∧
      dom2.usersHTML = String.join cards ∧
      cards.length = users.length ∧
      ∀ (i : Nat) (hi : i < users.length) (hc : i < cards.length),
        ContainsStr cards[i] users[i].name ∧
        ContainsStr cards[i] users[i].email ∧
        ∀ a : Address, users[i].address = some a → ContainsStr cards[i] a.city := by
  refine ⟨users.map cardStr,
    { loadingHidden := true, errorHidden := true, errorText := "",
      usersHTML := String.join (users.map cardStr) }, ?_, rfl, by simp, ?_⟩
  · cases users with
    | nil => exact absurd rfl hne
    | cons u us => exact displayUsers_cons_ok u us dom _ (mapCards_ok _ haddr)
  · intro i hi hc
    have hmem : users[i] ∈ users := List.getElem_mem hi
    obtain ⟨a, ha⟩ := Option.isSome_iff_exists.mp (haddr _ hmem)
    have hmap : (users.map cardStr)[i] = cardStr users[i] := List.getElem_map cardStr
    rw [hmap]
    obtain ⟨cn, ce, cc⟩ := cardStr_contains users[i] a ha
    refine ⟨cn, ce, ?_⟩
    intro b hb
    have hab : a = b := Option.some.inj (ha.symm.trans hb)
    exact hab ▸ cc

/-- A one-element demo list, the scenario the spec gives for rendering. -/
def demoUsers : List User :=
  [ { id := 1, name := "A", email := "a@x.com", address := some { city := "C" } } ]

/-- Witness for C3 at the one-user scenario from the spec. -/
theorem displayUsers_one_card_per_user_witness :
    demoUsers ≠ [] ∧
    ∃ cards : List String, ∃ dom2 : Dom,
      displayUsers demoUsers dom0 = Except.ok dom2 ∧
      dom2.usersHTML = String.join cards ∧
      cards.length = demoUsers.length ∧
      ∀ (i : Nat) (hi : i < demoUsers.length) (hc : i < cards.length),
        ContainsStr cards[i] demoUsers[i].name ∧
        ContainsStr cards[i] demoUsers[i].email ∧
        ∀ a : Address, demoUsers[i].address = some a → ContainsStr cards[i] a.city :=
  ⟨by simp [demoUsers],
   displayUsers_one_card_per_user demoUsers dom0 (by simp [demoUsers]) (by decide)⟩

/-- Claim C4: when a successful fetch returns an empty sequence, the trigger
flow ends with zero cards rendered and the error state showing the message
"No users found.". -/
theorem handleFetchUsers_empty_no_users_found (status : Nat) (dom : Dom)
    (h : responseOk status = true) :
    handleFetchUsers (FetchEnv.httpResponse status (Except.ok [])) dom =
      { loadingHidden := true, errorHidden := false,
        errorText := "No users found.", usersHTML := "" } := by
  have hs := fetchUsers_success status [] dom h
  have h1 : (fetchUsers (FetchEnv.httpResponse status (Except.ok [])) dom).1
      = ([] : List User) := by rw [hs]
  have h2 : (fetchUsers (FetchEnv.httpResponse status (Except.ok [])) dom).2
      = showLoading dom := by rw [hs]
  rw [handleFetchUsers_expand, h1, h2, displayUsers_nil]
  rfl

/-- Witness for C4 at a 200 response with an empty body. -/
theorem handleFetchUsers_empty_no_users_found_witness :
    responseOk 200 = true ∧
    handleFetchUsers (FetchEnv.httpResponse 200 (Except.ok [])) dom0 =
      { loadingHidden := true, errorHidden := false,
        errorText := "No users found.", usersHTML := "" } :=
  ⟨rfl, handleFetchUsers_empty_no_users_found 200 dom0 rfl⟩

/-- Claim C5: for every HTTP response with a non-2xx status code, `fetchUsers`
treats it as a failure: the parsed body is never returned (the fallback is),
and the displayed failure message embeds the status code. -/
theorem fetchUsers_non2xx_failure (status : Nat) (users : List User) (dom : Dom)
    (h : responseOk status = false) :
    (FetchEnv.httpResponse status (Except.ok users)).isFailure = true ∧
    (fetchUsers (FetchEnv.httpResponse status (Except.ok users)) dom).1 = SAMPLE_USERS ∧
    (users ≠ SAMPLE_USERS →
      (fetchUsers (FetchEnv.httpResponse status (Except.ok users)) dom).1 ≠ users) ∧
    (fetchUsers (FetchEnv.httpResponse status (Except.ok users)) dom).2.errorText
      = "Failed to fetch users: HTTP error! Status: " ++ toString status
          ++ ". Showing sample data." ∧
    ContainsStr
      ((fetchUsers (FetchEnv.httpResponse status (Except.ok users)) dom).2.errorText)
      (toString status) := by
  have hf : fetchUsers (FetchEnv.httpResponse status (Except.ok users)) dom =
      (SAMPLE_USERS,
        { loadingHidden := true, errorHidden := false,
          errorText := "Failed to fetch users: HTTP error! Status: " ++ toString status
            ++ ". Showing sample data.",
          usersHTML := "" }) := by
    simp [fetchUsers, h, showLoading, displayError, hideLoading]
  refine ⟨by simp [FetchEnv.isFailure, h], by rw [hf], ?_, by rw [hf], ?_⟩
  · intro hne heq
    rw [hf] at heq
    exact hne heq.symm
  · rw [hf]
    exact containsStr_mid "Failed to fetch users: HTTP error! Status: "
      (toString status) ". Showing sample data."

/-- Witness for C5 at status 500. -/
theorem fetchUsers_non2xx_failure_witness :
    responseOk 500 = false ∧
    (fetchUsers (FetchEnv.httpResponse 500 (Except.ok [])) dom0).2.errorText
      = "Failed to fetch users: HTTP error! Status: " ++ toString 500
          ++ ". Showing sample data." :=
  ⟨rfl, (fetchUsers_non2xx_failure 500 [] dom0 rfl).2.2.2.1⟩

/-- Claim C6: every exception escaping the orchestration in the trigger
handler — in particular one thrown by the renderer — is caught: the generic
"unexpected error" message is displayed on the DOM as it stood at the throw
point, and nothing is rethrown (the handler always produces a DOM). -/
theorem handleFetchUsers_catches_render_exception (env : FetchEnv) (dom : Dom)
    (e : String) (domE : Dom)
    (h : displayUsers (fetchUsers env dom).1 (fetchUsers env dom).2
      = Except.error (e, domE)) :
    handleFetchUsers env dom
      = displayError "An unexpected error occurred. Please try again." domE ∧
    (handleFetchUsers env dom).errorHidden = false ∧
    (handleFetchUsers env dom).errorText
      = "An unexpected error occurred. Please try again." := by
  have hx : handleFetchUsers env dom
      = displayError "An unexpected error occurred. Please try again." domE := by
    rw [handleFetchUsers_expand, h]
  exact ⟨hx, by rw [hx]; rfl, by rw [hx]; rfl⟩

/-- A user record whose address field is missing, making the renderer throw. -/
def brokenUser : User := { id := 1, name := "A", email := "a@x.com", address := none }

/-- Witness for C6: a 200 response whose body has a user without an address
makes the renderer throw; the handler ends with the generic message. -/
theorem handleFetchUsers_catches_render_exception_witness :
    displayUsers
        (fetchUsers (FetchEnv.httpResponse 200 (Except.ok [brokenUser])) dom0).1
        (fetchUsers (FetchEnv.httpResponse 200 (Except.ok [brokenUser])) dom0).2
      = Except.error ("TypeError: cannot read properties of undefined (reading city)",
          { loadingHidden := true, errorHidden := true, errorText := "", usersHTML := "" }) ∧
    (handleFetchUsers (FetchEnv.httpResponse 200 (Except.ok [brokenUser])) dom0).errorText
      = "An unexpected error occurred. Please try again." :=
  ⟨rfl,
   (handleFetchUsers_catches_render_exception
      (FetchEnv.httpResponse 200 (Except.ok [brokenUser])) dom0
      "TypeError: cannot read properties of undefined (reading city)"
      { loadingHidden := true, errorHidden := true, errorText := "", usersHTML := "" }
      rfl).2.2⟩

/-- Claim C7: triggering twice in sequence, waiting for completion each time,
ends in the same final rendered output as triggering once, given the same
endpoint behaviour both times. -/
theorem handleFetchUsers_idempotent (env : FetchEnv) (dom : Dom) :
    handleFetchUsers env (handleFetchUsers env dom) = handleFetchUsers env dom :=
  handleFetchUsers_dom_indep env (handleFetchUsers env dom) dom

/-- Claim C8: whenever the renderer completes on a non-empty sequence, the
error region ends hidden and emptied, whatever error was displayed before —
the renderer hides and empties it before producing cards. -/
theorem displayUsers_nonempty_clears_error (users : List User) (dom dom2 : Dom)
    (hne : users ≠ []) (h : displayUsers users dom = Except.ok dom2) :
    dom2.errorHidden = true ∧ dom2.errorText = "" := by
  cases users with
  | nil => exact absurd rfl hne
  | cons u us =>
    cases hm : mapCards (u :: us) with
    | ok cards =>
      rw [displayUsers_cons_ok u us dom cards hm] at h
      have h2 := Except.ok.inj h
      rw [← h2]
      exact ⟨rfl, rfl⟩
    | error e =>
      rw [displayUsers_cons_error u us dom e hm] at h
      exact Except.noConfusion h

/-- Witness for C8: rendering one user on top of a DOM that is showing an
error banner ends with the banner hidden and emptied. -/
theorem displayUsers_nonempty_clears_error_witness :
    demoUsers ≠ [] ∧
    (displayUsersDom demoUsers (displayError "boom" dom0)).errorHidden = true ∧
    (displayUsersDom demoUsers (displayError "boom" dom0)).errorText = "" :=
  ⟨by simp [demoUsers],
   (displayUsers_nonempty_clears_error demoUsers (displayError "boom" dom0)
      (displayUsersDom demoUsers (displayError "boom" dom0)) (by simp [demoUsers]) rfl).1,
   (displayUsers_nonempty_clears_error demoUsers (displayError "boom" dom0)
      (displayUsersDom demoUsers (displayError "boom" dom0)) (by simp [demoUsers]) rfl).2⟩

/-- Claim C9: the loading indicator is hidden before any final output is
shown: `displayError` hides it, the renderer hides it on both its outcomes,
and the completed trigger flow always ends with it hidden, so it is never
visible together with an error banner or rendered cards. -/
theorem loading_hidden_in_final_output (env : FetchEnv) (dom : Dom)
    (m : String) (users : List User) :
    (displayError m dom).loadingHidden = true ∧
    (displayUsersDom users dom).loadingHidden = true ∧
    (handleFetchUsers env dom).loadingHidden = true := by
  refine ⟨rfl, displayUsersDom_loading users dom, ?_⟩
  rw [handleFetchUsers_expand]
  cases hd : displayUsers (fetchUsers env dom).1 (fetchUsers env dom).2 with
  | ok d =>
    have hl := displayUsersDom_loading (fetchUsers env dom).1 (fetchUsers env dom).2
    unfold displayUsersDom at hl
    rw [hd] at hl
    exact hl
  | error p =>
    obtain ⟨e, domE⟩ := p
    rfl

/-- Claim C10: for every user with the address field present, `createUserCard`
returns exactly the fixed HTML template with the name, email and city
substituted in raw — the field strings appear verbatim in the card, with no
escaping or sanitization. -/
theorem createUserCard_fixed_template_raw (u : User) (a : Address)
    (h : u.address = some a) :
    createUserCard u = Except.ok
      (cardHead ++ u.name ++ cardAfterName ++ u.email ++ cardAfterEmail
        ++ a.city ++ cardTail) ∧
    ContainsStr (cardStr u) u.name ∧
    ContainsStr (cardStr u) u.email ∧
    ContainsStr (cardStr u) a.city := by
  refine ⟨?_, cardStr_contains u a h⟩
  rw [createUserCard_ok u a h, cardStr_parts u a h]

/-- A user whose fields hold HTML markup, to exhibit raw substitution. -/
def rawUser : User :=
  { id := 1, name := "<script>alert(1)</script>", email := "x@y.com",
    address := some { city := "<b>Town</b>" } }

/-- Witness for C10: markup in the field strings lands in the card verbatim. -/
theorem createUserCard_fixed_template_raw_witness :
    rawUser.address = some { city := "<b>Town</b>" } ∧
    createUserCard rawUser = Except.ok
      (cardHead ++ "<script>alert(1)</script>" ++ cardAfterName ++ "x@y.com"
        ++ cardAfterEmail ++ "<b>Town</b>" ++ cardTail) ∧
    ContainsStr (cardStr rawUser) "<script>alert(1)</script>" :=
  ⟨rfl,
   (createUserCard_fixed_template_raw rawUser { city := "<b>Town</b>" } rfl).1,
   (createUserCard_fixed_template_raw rawUser { city := "<b>Town</b>" } rfl).2.1⟩
